import Mathlib

/-! Shallow embedding of the authentication and multi-factor session core of the
FinanceManager backend (packages `internal/auth` and `internal/user`).

Modelling conventions:
* instants are integers counting seconds (`time.Time` comparisons such as
  `time.Now().After(t)` become strict `>` on `Int`);
* the persistent stores (user rows, the one-time-code mailbox, TOTP secrets,
  the in-memory challenge session map) are explicit state, carried through
  every operation;
* randomness (fresh verification codes, fresh session tokens, fresh bcrypt
  hashes and rotating secrets) is passed in as explicit oracle arguments;
* bcrypt comparison and TOTP verification are external collaborators and are
  passed in as function parameters;
* HMAC-SHA256 (the refresh-token binding tag) and the HS256 JWT signature are
  modelled symbolically as ideal keyed hashes: a tag is the pair of key and
  message, so two tags are equal exactly when key and message agree.
-/

namespace FinanceManager

/-- Error values of the auth and user services (`internal/auth/service.go`,
`internal/user/repository.go`, session manager, `internal/auth/jwt.go`). -/
inductive AuthErr
  | ErrUserNotFound
  | ErrInvalidCredentials
  | ErrInternalError
  | ErrInvalidTwoFactorMethod
  | ErrUser2FANotEnabled
  | ErrInvalid2FACode
  | ErrUser2FAAlreadyEnabled
  | ErrInvalidVerificationCode
  | ErrVerificationCodeExpired
  | ErrUserNotVerified
  | ErrTooManyEmailCodeRequests
  | InvalidCodeType
  | ErrNoTwoFactorCodeGenerated
  | ErrInvalidSessionToken
  | ErrExpiredSessionToken
  deriving DecidableEq, Repr

/-- JWT validation errors (`internal/auth/jwt.go`): the expired and invalid
errors are kept distinguishable; `ErrParse` stands for any raw
`jwt.ValidationError` (bad signature, issued in the future, garbage) that the
validation functions return verbatim. -/
inductive JWTErr
  | ErrExpiredJWTToken
  | ErrInvalidJWTToken
  | ErrParse
  deriving DecidableEq, Repr

/-- A user row (`internal/auth` / `internal/user` `User` struct; the
timestamp columns are irrelevant to the modelled operations). -/
structure User where
  id : String
  email : String
  login : String
  passwordHash : String
  twoFactorEnabled : Bool
  twoFactorMethod : String
  hashToken : String
  isActive : Bool
  deriving DecidableEq, Repr

/-- One pending one-time code: a row of `user_email_verification_codes`,
keyed by user id (the table's primary key), so at most one per user. -/
structure PendingCode where
  code : String
  codeType : String
  expiresAt : Int
  createdAt : Int
  deriving DecidableEq, Repr

/-- One challenge session entry (`SessionToken` struct of the session
manager). -/
structure SessionEntry where
  userID : String
  expiresAt : Int
  createdAt : Int
  deriving DecidableEq, Repr

/-- Outbound email template selected by `QueueEmail`'s payload type. -/
inductive EmailTemplate
  | twoFactorCodeData
  | resetPasswordData
  | registrationConfirmationData
  deriving DecidableEq, Repr

/-- One queued outbound email (recipient, template, template data). -/
structure QueuedEmail where
  recipient : String
  template : EmailTemplate
  userName : String
  code : String
  deriving DecidableEq, Repr

/-- The mutable state the auth core reads and writes: the users table, the
one-time-code mailbox, the TOTP secret table, the in-memory session map and
the outbound email queue. -/
structure AppState where
  users : List User
  codes : String → Option PendingCode
  secrets : String → Option String
  sessions : String → Option SessionEntry
  emails : List QueuedEmail

/-! Constants from `internal/auth/service.go`, `internal/auth/jwt.go` and the
session manager, durations converted to seconds. -/

def google2FAAuthMethod : String := "google_authenticator"

def email2FAAuthMethod : String := "email"

def CodeVerifyType : String := "verify"

def Code2FAType : String := "2fa"

def CodePassType : String := "password"

/-- `defaultCodeTimeout = 2` minutes, in seconds. -/
def defaultCodeTimeoutSecs : Int := 120

/-- `defaultJWTRefreshDuration = 720 * time.Hour`, in seconds. -/
def defaultJWTRefreshDuration : Int := 720 * 3600

/-- `defaultJWTDuration = 10 * time.Minute`, in seconds. -/
def defaultJWTDuration : Int := 10 * 60

/-- `defaultSessionTokenDuration = 5 * time.Minute`, in seconds. -/
def defaultSessionTokenDuration : Int := 5 * 60

/-! Token issuer (`internal/auth/jwt.go`) -/

/-- Symbolic value of `hex(HMAC-SHA256(key, message))`: the ideal keyed hash,
a tag determines its key and message. -/
structure MacTag where
  key : String
  message : String
  deriving DecidableEq, Repr

/-- `generateCustomKey(userID, tokenHash)` computes
`hex(HMAC-SHA256(key = tokenHash, message = userID))`; in the symbolic model
the tag is the (key, message) pair itself. -/
def generateCustomKey (userID tokenHash : String) : MacTag :=
  { key := tokenHash, message := userID }

/-- `RefreshTokenCustomClaims`: user id, binding tag and the standard
subject/issued-at/expires-at claims. -/
structure RefreshTokenCustomClaims where
  userID : String
  cusKey : MacTag
  sub : String
  issuedAt : Int
  expiresAt : Int
  deriving DecidableEq, Repr

/-- `AccessTokenCustomClaims`: user id plus standard claims. -/
structure AccessTokenCustomClaims where
  userID : String
  sub : String
  issuedAt : Int
  expiresAt : Int
  deriving DecidableEq, Repr

/-- A signed refresh token: the claim set plus the HS256 signature, the
latter modelled symbolically by the signing secret (the signature verifies
exactly under that secret). -/
structure SignedRefreshToken where
  claims : RefreshTokenCustomClaims
  sigKey : String
  deriving DecidableEq, Repr

/-- A signed access token, same symbolic signature model. -/
structure SignedAccessToken where
  claims : AccessTokenCustomClaims
  sigKey : String
  deriving DecidableEq, Repr

/-- `GenerateRefreshJWT(userID, tokenHash, duration)` at instant `now`:
claims embed the binding tag `generateCustomKey(userID, tokenHash)`,
`iat = now`, `exp = now + duration`; signed with the server secret. -/
def generateRefreshJWT (secret : String) (now : Int) (userID tokenHash : String)
    (duration : Int) : SignedRefreshToken :=
  { claims :=
      { userID := userID
        cusKey := generateCustomKey userID tokenHash
        sub := userID
        issuedAt := now
        expiresAt := now + duration }
    sigKey := secret }

/-- `GenerateAccessJWT(userID, duration)` at instant `now`. -/
def generateAccessJWT (secret : String) (now : Int) (userID : String)
    (duration : Int) : SignedAccessToken :=
  { claims := { userID := userID, sub := userID, issuedAt := now, expiresAt := now + duration }
    sigKey := secret }

/-- `ValidateRefreshToken(tokenString, tokenHash)` at instant `now`.
Mirrors the Go order: the parse step reports the expired error first
(jwt-go sets the expired bit and the caller checks it before anything else),
then any other parse/signature/issued-at failure is returned verbatim
(`ErrParse`), then the empty-user-id check and finally the binding-tag
comparison, both yielding `ErrInvalidJWTToken`. `none` means valid. -/
def validateRefreshToken (secret : String) (now : Int) (tok : SignedRefreshToken)
    (tokenHash : String) : Option JWTErr :=
  if now > tok.claims.expiresAt then some .ErrExpiredJWTToken
  else if tok.sigKey ≠ secret ∨ now < tok.claims.issuedAt then some .ErrParse
  else if tok.claims.userID = "" then some .ErrInvalidJWTToken
  else if tok.claims.cusKey ≠ generateCustomKey tok.claims.userID tokenHash then
    some .ErrInvalidJWTToken
  else none

/-! User store and one-time-code mailbox (`internal/user`) -/

/-- `getUserByLoginOrEmail`: `WHERE login = $1 OR email = $1`. -/
def getUserByLoginOrEmail (users : List User) (loginOrEmail : String) : Option User :=
  users.find? (fun u => u.login == loginOrEmail || u.email == loginOrEmail)

/-- `getUserByID`: `WHERE id = $1`. -/
def getUserByID (users : List User) (id : String) : Option User :=
  users.find? (fun u => u.id == id)

/-- The repository upsert `saveEmailVerificationCode` -- note that the
`ON CONFLICT (user_id) DO UPDATE` clause sets `code`, `expires_at` and
`created_at` but not `type`, so an existing row keeps its old type tag;
only a fresh insert records `codeType`. -/
def saveEmailVerificationCode (codes : String → Option PendingCode)
    (userID code : String) (expiresAt : Int) (codeType : String) (now : Int) :
    String → Option PendingCode :=
  fun u =>
    if u = userID then
      match codes userID with
      | some old =>
          some { code := code, codeType := old.codeType, expiresAt := expiresAt, createdAt := now }
      | none =>
          some { code := code, codeType := codeType, expiresAt := expiresAt, createdAt := now }
    else codes u

/-- `getEmailVerificationCode`: returns (code, type, expires_at, created_at,
error); zero values plus `ErrNoTwoFactorCodeGenerated` when no row exists. -/
def getEmailVerificationCode (codes : String → Option PendingCode) (userID : String) :
    String × String × Int × Int × Option AuthErr :=
  match codes userID with
  | none => ("", "", 0, 0, some .ErrNoTwoFactorCodeGenerated)
  | some p => (p.code, p.codeType, p.expiresAt, p.createdAt, none)

/-- `deleteEmailTwoFactorCode`: `DELETE ... WHERE user_id = $1`. -/
def deleteEmailTwoFactorCode (codes : String → Option PendingCode) (userID : String) :
    String → Option PendingCode :=
  fun u => if u = userID then none else codes u

/-- `GenerateVerificationCode`: six random bytes, each mapped to the digit
character `'0' + (b % 10)`. -/
def generateVerificationCode (bytes : List Nat) : String :=
  String.mk (bytes.map (fun b => Char.ofNat (48 + b % 10)))

/-- `changePassword` / `updateUserPasswordAndHashToken`: store a fresh
password hash and a fresh rotating secret on the user row. -/
def changePassword (st : AppState) (userID newPasswordHash newHashToken : String) : AppState :=
  { st with
      users := st.users.map (fun u =>
        if u.id = userID then { u with passwordHash := newPasswordHash, hashToken := newHashToken }
        else u) }

/-- `EnableTwoFactor`: flip `two_factor_enabled` and record the method. -/
def enableTwoFactor (st : AppState) (userID method : String) : AppState :=
  { st with
      users := st.users.map (fun u =>
        if u.id = userID then { u with twoFactorEnabled := true, twoFactorMethod := method }
        else u) }

/-- `DisableTwoFactor`: clears the flag and the method; if the previous
method was the time-based one, also deletes the stored TOTP secret. -/
def disableTwoFactor (st : AppState) (userID : String) : AppState :=
  let prevMethod := match getUserByID st.users userID with
    | some u => u.twoFactorMethod
    | none => ""
  let st2 : AppState :=
    { st with
        users := st.users.map (fun u =>
          if u.id = userID then { u with twoFactorEnabled := false, twoFactorMethod := "" }
          else u) }
  if prevMethod = google2FAAuthMethod then
    { st2 with secrets := fun u => if u = userID then none else st2.secrets u }
  else st2

/-! Challenge session store (session manager) -/

/-- `GenerateSessionToken(userID, duration)`: the fresh random token is an
oracle argument; inserts `{userID, now + duration, now}` and returns the
token with the updated map. -/
def generateSessionToken (now : Int) (freshToken : String)
    (sessions : String → Option SessionEntry) (userID : String) (duration : Int) :
    String × (String → Option SessionEntry) :=
  (freshToken,
   fun t =>
     if t = freshToken then
       some { userID := userID, expiresAt := now + duration, createdAt := now }
     else sessions t)

/-- `VerifySessionToken`: `ErrInvalidSessionToken` when the token is absent,
`ErrExpiredSessionToken` when `now` is strictly after `expiresAt`, otherwise
the stored user id; the map is left untouched. -/
def verifySessionToken (now : Int) (sessions : String → Option SessionEntry)
    (sessionToken : String) : Except AuthErr String :=
  match sessions sessionToken with
  | none => .error .ErrInvalidSessionToken
  | some tok =>
      if now > tok.expiresAt then .error .ErrExpiredSessionToken
      else .ok tok.userID

/-! Auth orchestrator (`internal/auth/service.go`) -/

/-- `SendEmailCode(user, codeType)`: reads any pending code (the lookup
error is ignored, only the returned fields are used); refuses with
`ErrTooManyEmailCodeRequests` when a pending code exists (nonempty type)
that was created within the two-minute window, is not of the verify type and
differs in type from the requested one; otherwise stores a fresh code with a
ten-minute expiry and queues the email template selected by `codeType`. -/
def sendEmailCode (now : Int) (freshBytes : List Nat) (st : AppState) (u : User)
    (codeType : String) : Option AuthErr × AppState :=
  match getEmailVerificationCode st.codes u.id with
  | (_, storedCodeType, _, createdAt, _) =>
    if storedCodeType ≠ "" ∧ now - createdAt < defaultCodeTimeoutSecs ∧
        storedCodeType ≠ CodeVerifyType ∧ codeType ≠ storedCodeType then
      (some .ErrTooManyEmailCodeRequests, st)
    else
      let newCode := generateVerificationCode freshBytes
      let codes2 := saveEmailVerificationCode st.codes u.id newCode (now + 600) codeType now
      let emails2 :=
        if codeType = Code2FAType then
          st.emails ++ [{ recipient := u.email, template := .twoFactorCodeData,
                          userName := u.login, code := newCode }]
        else if codeType = CodePassType then
          st.emails ++ [{ recipient := u.email, template := .resetPasswordData,
                          userName := u.login, code := newCode }]
        else if codeType = CodeVerifyType then
          st.emails ++ [{ recipient := u.email, template := .registrationConfirmationData,
                          userName := u.login, code := newCode }]
        else st.emails
      (none, { st with codes := codes2, emails := emails2 })

/-- Result of `Login` / `VerifyTwoFactor`: a typed failure, a challenge
session token (password verified, second factor pending), or an
access/refresh token pair. -/
inductive AuthOutcome
  | failure (e : AuthErr)
  | challenge (u : User) (sessionToken : String)
  | tokens (u : User) (access : SignedAccessToken) (refresh : SignedRefreshToken)
  deriving DecidableEq, Repr

/-- `Login(emailOrLogin, password)`: a not-found lookup is translated to
`ErrInvalidCredentials`; an inactive user gets a verify-type code and
`ErrUserNotVerified` before the password is ever compared; a bcrypt mismatch
is `ErrInvalidCredentials`; with 2FA enabled the emailed variant sends a
2fa-type code and both variants answer with a challenge session token; else
an access token and a refresh token bound to the user's rotating secret are
issued. -/
def login (bcryptMatch : String → String → Bool) (jwtSecret : String) (now : Int)
    (freshBytes : List Nat) (freshSession : String) (st : AppState)
    (emailOrLogin password : String) : AuthOutcome × AppState :=
  match getUserByLoginOrEmail st.users emailOrLogin with
  | none => (.failure .ErrInvalidCredentials, st)
  | some existingUser =>
    if existingUser.isActive = false then
      match sendEmailCode now freshBytes st existingUser CodeVerifyType with
      | (some _, st2) => (.failure .ErrInternalError, st2)
      | (none, st2) => (.failure .ErrUserNotVerified, st2)
    else if bcryptMatch existingUser.passwordHash password = false then
      (.failure .ErrInvalidCredentials, st)
    else if existingUser.twoFactorEnabled then
      let step : Option AuthErr × AppState :=
        if existingUser.twoFactorMethod = email2FAAuthMethod then
          match sendEmailCode now freshBytes st existingUser Code2FAType with
          | (some _, st2) => (some .ErrInternalError, st2)
          | (none, st2) => (none, st2)
        else if existingUser.twoFactorMethod = google2FAAuthMethod then (none, st)
        else (some .ErrInvalidTwoFactorMethod, st)
      match step with
      | (some e, st2) => (.failure e, st2)
      | (none, st2) =>
        let gen := generateSessionToken now freshSession st2.sessions existingUser.id
          defaultSessionTokenDuration
        (.challenge existingUser gen.1, { st2 with sessions := gen.2 })
    else
      (.tokens existingUser
        (generateAccessJWT jwtSecret now existingUser.id defaultJWTDuration)
        (generateRefreshJWT jwtSecret now existingUser.id existingUser.hashToken
          defaultJWTRefreshDuration),
       st)

/-- `VerifyTwoFactor(sessionToken, code)`: resolve the challenge, load the
user (a failed load surfaces as `ErrInternalError`: the not-found comparison
is against the auth package's own error value, which the user service never
returns), require 2FA, dispatch on the method; in the emailed branch the
stored type tag is compared against `2fa` before the lookup error is
inspected. On success both tokens are issued -- the refresh token with
`defaultJWTDuration`, exactly as in the source. -/
def verifyTwoFactor (jwtSecret : String) (totpVerify : String → String → Bool)
    (now : Int) (st : AppState) (sessionToken code : String) : AuthOutcome × AppState :=
  match verifySessionToken now st.sessions sessionToken with
  | .error e => (.failure e, st)
  | .ok userID =>
    match getUserByID st.users userID with
    | none => (.failure .ErrInternalError, st)
    | some existingUser =>
      if existingUser.twoFactorEnabled = false then (.failure .ErrUser2FANotEnabled, st)
      else
        let branch : Except AuthErr (Bool × AppState) :=
          if existingUser.twoFactorMethod = email2FAAuthMethod then
            match getEmailVerificationCode st.codes userID with
            | (storedCode, codeType, expiryTime, _, gerr) =>
              if codeType ≠ Code2FAType then .error .InvalidCodeType
              else
                match gerr with
                | some e => .error e
                | none =>
                  if storedCode ≠ code then .error .ErrInvalidVerificationCode
                  else if now > expiryTime then .error .ErrVerificationCodeExpired
                  else .ok (true, { st with codes := deleteEmailTwoFactorCode st.codes userID })
          else if existingUser.twoFactorMethod = google2FAAuthMethod then
            match st.secrets userID with
            | none => .error .ErrUser2FANotEnabled
            | some secret => .ok (totpVerify secret code, st)
          else .error .ErrInvalidTwoFactorMethod
        match branch with
        | .error e => (.failure e, st)
        | .ok (valid, st2) =>
          if valid = false then (.failure .ErrInvalid2FACode, st2)
          else
            (.tokens existingUser
              (generateAccessJWT jwtSecret now existingUser.id defaultJWTDuration)
              (generateRefreshJWT jwtSecret now existingUser.id existingUser.hashToken
                defaultJWTDuration),
             st2)

/-- `VerifyTwoFactorCode(userID, method, code)`: confirms a pending 2FA
registration; in the emailed branch the stored type tag is compared against
`2fa` before the lookup error is inspected; on success flips the user's 2FA
flag and method. -/
def verifyTwoFactorCode (totpVerify : String → String → Bool) (now : Int)
    (st : AppState) (userID method code : String) : Option AuthErr × AppState :=
  match getUserByID st.users userID with
  | none => (some .ErrInternalError, st)
  | some existingUser =>
    if existingUser.twoFactorEnabled then (some .ErrUser2FAAlreadyEnabled, st)
    else
      let branch : Except AuthErr AppState :=
        if method = email2FAAuthMethod then
          match getEmailVerificationCode st.codes userID with
          | (storedCode, codeType, expiryTime, _, gerr) =>
            if codeType ≠ Code2FAType then .error .InvalidCodeType
            else
              match gerr with
              | some e => .error e
              | none =>
                if storedCode ≠ code then .error .ErrInvalid2FACode
                else if now > expiryTime then .error .ErrVerificationCodeExpired
                else .ok { st with codes := deleteEmailTwoFactorCode st.codes userID }
        else if method = google2FAAuthMethod then
          match st.secrets userID with
          | none => .error .ErrInvalidTwoFactorMethod
          | some secret =>
            if totpVerify secret code then .ok st else .error .ErrInvalid2FACode
        else .error .ErrInvalidTwoFactorMethod
      match branch with
      | .error e => (some e, st)
      | .ok st2 => (none, enableTwoFactor st2 userID method)

/-- `DisableTwoFactorAuth(userID, method, verificationCode)`: requires proof
via the currently enabled method; in the emailed branch the lookup error is
inspected before the type tag (unlike the verify operations); on success the
2FA flag is cleared (and the time-based secret deleted). -/
def disableTwoFactorAuth (totpVerify : String → String → Bool) (now : Int)
    (st : AppState) (userID method verificationCode : String) : Option AuthErr × AppState :=
  match getUserByID st.users userID with
  | none => (some .ErrUserNotFound, st)
  | some existingUser =>
    if existingUser.twoFactorEnabled = false then (some .ErrUser2FANotEnabled, st)
    else if existingUser.twoFactorMethod ≠ method then (some .ErrInvalidTwoFactorMethod, st)
    else
      let branch : Except AuthErr AppState :=
        if existingUser.twoFactorMethod = google2FAAuthMethod then
          match st.secrets userID with
          | none => .error .ErrInternalError
          | some secret =>
            if totpVerify secret verificationCode = false then .error .ErrInvalid2FACode
            else .ok st
        else if existingUser.twoFactorMethod = email2FAAuthMethod then
          match getEmailVerificationCode st.codes userID with
          | (storedCode, codeType, expiryTime, _, gerr) =>
            match gerr with
            | some e => .error e
            | none =>
              if codeType ≠ Code2FAType then .error .InvalidCodeType
              else if storedCode ≠ verificationCode then .error .ErrInvalid2FACode
              else if now > expiryTime then .error .ErrVerificationCodeExpired
              else .ok { st with codes := deleteEmailTwoFactorCode st.codes userID }
        else .error .ErrInvalidTwoFactorMethod
      match branch with
      | .error e => (some e, st)
      | .ok st2 => (none, disableTwoFactor st2 userID)

/-- `RefreshAccessToken(userID)` (the incoming refresh token was already
validated by the middleware): issues a fresh access token and a fresh
refresh token with the long `defaultJWTRefreshDuration`, bound to the
current rotating secret. -/
def refreshAccessToken (jwtSecret : String) (now : Int) (st : AppState)
    (userID : String) : Except AuthErr (SignedAccessToken × SignedRefreshToken) :=
  match getUserByID st.users userID with
  | none => .error .ErrInternalError
  | some existingUser =>
    .ok (generateAccessJWT jwtSecret now userID defaultJWTDuration,
         generateRefreshJWT jwtSecret now userID existingUser.hashToken
           defaultJWTRefreshDuration)

/-- `RequestPasswordReset(email)`: for an email-2FA user first sends a
2fa-type code, then (falling through the switch) attempts to send a
password-type code as well; for a time-based-2FA user returns immediately;
otherwise only the password-type code is sent. `freshBytes1` feeds the first
issuance, `freshBytes2` the second. -/
def requestPasswordReset (now : Int) (freshBytes1 freshBytes2 : List Nat)
    (st : AppState) (email : String) : Option AuthErr × AppState :=
  match getUserByLoginOrEmail st.users email with
  | none => (some .ErrInternalError, st)
  | some existingUser =>
    let sendPass (stIn : AppState) : Option AuthErr × AppState :=
      match sendEmailCode now freshBytes2 stIn existingUser CodePassType with
      | (some e, st2) =>
        if e = .ErrTooManyEmailCodeRequests then (some .ErrTooManyEmailCodeRequests, st2)
        else (some .ErrInternalError, st2)
      | (none, st2) => (none, st2)
    if existingUser.twoFactorEnabled then
      if existingUser.twoFactorMethod = google2FAAuthMethod then (none, st)
      else if existingUser.twoFactorMethod = email2FAAuthMethod then
        match sendEmailCode now freshBytes1 st existingUser Code2FAType with
        | (some e, st2) =>
          if e = .ErrTooManyEmailCodeRequests then (some .ErrTooManyEmailCodeRequests, st2)
          else (some .ErrInternalError, st2)
        | (none, st2) => sendPass st2
      else (some .ErrInvalidTwoFactorMethod, st)
    else sendPass st

/-- `ResetPassword(email, verificationCode, newPassword)`: with 2FA enabled
the proof is the second factor (time-based: TOTP check; emailed: consume a
2fa-type code), otherwise a password-type code is consumed; on success the
password hash and the rotating secret are replaced (the fresh values are
oracle arguments). -/
def resetPassword (totpVerify : String → String → Bool) (now : Int)
    (newPasswordHash newHashToken : String) (st : AppState)
    (email verificationCode _newPassword : String) : Option AuthErr × AppState :=
  match getUserByLoginOrEmail st.users email with
  | none => (some .ErrUserNotFound, st)
  | some existingUser =>
    let branch : Except AuthErr AppState :=
      if existingUser.twoFactorEnabled then
        if existingUser.twoFactorMethod = google2FAAuthMethod then
          match st.secrets existingUser.id with
          | none => .error .ErrInternalError
          | some secret =>
            if totpVerify secret verificationCode then .ok st
            else .error .ErrInvalid2FACode
        else if existingUser.twoFactorMethod = email2FAAuthMethod then
          match getEmailVerificationCode st.codes existingUser.id with
          | (storedCode, codeType, expiryTime, _, gerr) =>
            match gerr with
            | some e =>
              if e = .ErrNoTwoFactorCodeGenerated then .error .ErrNoTwoFactorCodeGenerated
              else .error .ErrInternalError
            | none =>
              if codeType ≠ Code2FAType then .error .InvalidCodeType
              else if storedCode ≠ verificationCode then .error .ErrInvalid2FACode
              else if now > expiryTime then .error .ErrVerificationCodeExpired
              else .ok { st with codes := deleteEmailTwoFactorCode st.codes existingUser.id }
        else .error .ErrInvalidTwoFactorMethod
      else
        match getEmailVerificationCode st.codes existingUser.id with
        | (storedCode, codeType, expiryTime, _, gerr) =>
          match gerr with
          | some e =>
            if e = .ErrNoTwoFactorCodeGenerated then .error .ErrNoTwoFactorCodeGenerated
            else .error .ErrInternalError
          | none =>
            if codeType ≠ CodePassType then .error .InvalidCodeType
            else if storedCode ≠ verificationCode then .error .ErrInvalid2FACode
            else if now > expiryTime then .error .ErrVerificationCodeExpired
            else .ok { st with codes := deleteEmailTwoFactorCode st.codes existingUser.id }
    match branch with
    | .error e => (some e, st)
    | .ok st2 => (none, changePassword st2 existingUser.id newPasswordHash newHashToken)

/-! Theorems settling the claims. -/

/-- Claim C1: a refresh token generated under rotating secret `S1` whose
expiry has not elapsed validates successfully against `S1`, and against any
different secret `S2` fails with `ErrInvalidJWTToken` (not the expired
error): rotating the secret, as a password change does, immediately revokes
refresh tokens issued under the old secret. -/
theorem validateRefreshToken_secret_rotation
    (secret userID S1 S2 : String) (d issueAt now : Int)
    (hid : userID ≠ "") (hne : S1 ≠ S2)
    (hiat : issueAt ≤ now) (hexp : now ≤ issueAt + d) :
    validateRefreshToken secret now (generateRefreshJWT secret issueAt userID S1 d) S1 = none ∧
    validateRefreshToken secret now (generateRefreshJWT secret issueAt userID S1 d) S2 =
      some .ErrInvalidJWTToken := by
  have hnotexp : ¬ now > issueAt + d := by omega
  have hnotiat : ¬ now < issueAt := by omega
  constructor <;>
    simp [validateRefreshToken, generateRefreshJWT, generateCustomKey, hnotexp, hnotiat,
      hid, hne, MacTag.mk.injEq]

/-- Witness for C1 at concrete inputs. -/
theorem validateRefreshToken_secret_rotation_witness :
    ("u1" : String) ≠ "" ∧ ("s1" : String) ≠ "s2" ∧
    (0 : Int) ≤ 50 ∧ (50 : Int) ≤ 0 + 100 ∧
    (validateRefreshToken "k" 50 (generateRefreshJWT "k" 0 "u1" "s1" 100) "s1" = none ∧
     validateRefreshToken "k" 50 (generateRefreshJWT "k" 0 "u1" "s1" 100) "s2" =
       some .ErrInvalidJWTToken) :=
  ⟨by decide, by decide, by decide, by decide,
   validateRefreshToken_secret_rotation "k" "u1" "s1" "s2" 100 0 50
     (by decide) (by decide) (by decide) (by decide)⟩

/-- Claim C3: Login returns the identical error value, `ErrInvalidCredentials`
with no tokens and no state change, for a nonexistent identifier and for an
existing active user with a wrong password. -/
theorem login_enumeration_resistant
    (bcryptMatch : String → String → Bool) (jwtSecret : String) (now : Int)
    (b1 b2 : List Nat) (t1 t2 : String) (st : AppState)
    (id1 p1 id2 p2 : String) (u : User)
    (h1 : getUserByLoginOrEmail st.users id1 = none)
    (h2 : getUserByLoginOrEmail st.users id2 = some u)
    (hact : u.isActive = true)
    (hpw : bcryptMatch u.passwordHash p2 = false) :
    login bcryptMatch jwtSecret now b1 t1 st id1 p1 = (.failure .ErrInvalidCredentials, st) ∧
    login bcryptMatch jwtSecret now b2 t2 st id2 p2 = (.failure .ErrInvalidCredentials, st) := by
  constructor
  · simp [login, h1]
  · simp [login, h2, hact, hpw]

/-- Demo user for the C3 witness: active, no 2FA. -/
def c3User : User :=
  { id := "u1", email := "a@b.co", login := "alice", passwordHash := "pw",
    twoFactorEnabled := false, twoFactorMethod := "", hashToken := "ht",
    isActive := true }

/-- Demo state for the C3 witness. -/
def c3State : AppState :=
  { users := [c3User], codes := fun _ => none, secrets := fun _ => none,
    sessions := fun _ => none, emails := [] }

/-- Witness for C3 at a concrete store with one active user. -/
theorem login_enumeration_resistant_witness :
    getUserByLoginOrEmail c3State.users "nobody" = none ∧
    getUserByLoginOrEmail c3State.users "alice" = some c3User ∧
    c3User.isActive = true ∧
    (fun h p => h == p) c3User.passwordHash "wrong" = false ∧
    (login (fun h p => h == p) "k" 7 [] "tok" c3State "nobody" "x" =
        (.failure .ErrInvalidCredentials, c3State) ∧
      login (fun h p => h == p) "k" 7 [] "tok" c3State "alice" "wrong" =
        (.failure .ErrInvalidCredentials, c3State)) :=
  ⟨by decide, by decide, by decide, by decide,
   login_enumeration_resistant (fun h p => h == p) "k" 7 [] [] "tok" "tok" c3State
     "nobody" "x" "alice" "wrong" c3User (by decide) (by decide) (by decide) (by decide)⟩

/-- Claim C5: resolving a challenge session token fails with
`ErrInvalidSessionToken` when the token is absent, with
`ErrExpiredSessionToken` when `now` is strictly after the stored expiry, and
otherwise yields the stored user id; the entry is not consumed, so a token
issued with TTL `ttl` at `t0` resolves successfully at any two instants up
to `t0 + ttl` and fails with the expired error strictly after. -/
theorem verifySessionToken_resolve_spec
    (now1 now2 now3 t0 ttl : Int) (freshTok uid tok : String)
    (sessions : String → Option SessionEntry)
    (h1 : now1 ≤ t0 + ttl) (h2 : now2 ≤ t0 + ttl) (h3 : now3 > t0 + ttl) :
    (sessions tok = none →
      verifySessionToken now1 sessions tok = .error .ErrInvalidSessionToken) ∧
    (∀ s, sessions tok = some s → now1 > s.expiresAt →
      verifySessionToken now1 sessions tok = .error .ErrExpiredSessionToken) ∧
    (∀ s, sessions tok = some s → ¬ now1 > s.expiresAt →
      verifySessionToken now1 sessions tok = .ok s.userID) ∧
    verifySessionToken now1 (generateSessionToken t0 freshTok sessions uid ttl).2 freshTok =
      .ok uid ∧
    verifySessionToken now2 (generateSessionToken t0 freshTok sessions uid ttl).2 freshTok =
      .ok uid ∧
    verifySessionToken now3 (generateSessionToken t0 freshTok sessions uid ttl).2 freshTok =
      .error .ErrExpiredSessionToken := by
  refine ⟨fun h => by simp [verifySessionToken, h],
          fun s hs hexp => by simp [verifySessionToken, hs, hexp],
          fun s hs hexp => by simp [verifySessionToken, hs, hexp],
          ?_, ?_, ?_⟩ <;>
    simp [verifySessionToken, generateSessionToken] <;> omega

/-- Witness for C5 at concrete inputs: issue at `t0 = 0` with `ttl = 300`,
resolve twice before expiry and once after. -/
theorem verifySessionToken_resolve_spec_witness :
    (100 : Int) ≤ 0 + 300 ∧ (299 : Int) ≤ 0 + 300 ∧ (301 : Int) > 0 + 300 ∧
    ((fun (_ : String) => (none : Option SessionEntry)) "gone" = none →
      verifySessionToken 100 (fun _ => none) "gone" = .error .ErrInvalidSessionToken) ∧
    (∀ s, (fun (_ : String) => (none : Option SessionEntry)) "gone" = some s →
      (100 : Int) > s.expiresAt →
      verifySessionToken 100 (fun _ => none) "gone" = .error .ErrExpiredSessionToken) ∧
    (∀ s, (fun (_ : String) => (none : Option SessionEntry)) "gone" = some s →
      ¬ (100 : Int) > s.expiresAt →
      verifySessionToken 100 (fun _ => none) "gone" = .ok s.userID) ∧
    verifySessionToken 100 (generateSessionToken 0 "tk" (fun _ => none) "u1" 300).2 "tk" =
      .ok "u1" ∧
    verifySessionToken 299 (generateSessionToken 0 "tk" (fun _ => none) "u1" 300).2 "tk" =
      .ok "u1" ∧
    verifySessionToken 301 (generateSessionToken 0 "tk" (fun _ => none) "u1" 300).2 "tk" =
      .error .ErrExpiredSessionToken :=
  ⟨by decide, by decide, by decide,
   verifySessionToken_resolve_spec 100 299 301 0 300 "tk" "u1" "gone" (fun _ => none)
     (by decide) (by decide) (by decide)⟩

/-- Claim C9 (amended): for a stored inactive user, Login's result is
independent of the candidate password (the bcrypt comparison is never
reached); when the user's mailbox slot is empty it stores a verify-type
code and fails with `ErrUserNotVerified`. (Unconditionally the claim is
false: a fresh pending non-verify code trips the rate limiter inside
SendEmailCode and Login then fails with `ErrInternalError`, issuing
nothing.) -/
theorem login_inactive_independent_of_password
    (bcryptMatch : String → String → Bool) (jwtSecret : String) (now : Int)
    (bytes : List Nat) (freshSession : String) (st : AppState) (idf : String) (u : User)
    (hfind : getUserByLoginOrEmail st.users idf = some u)
    (hinact : u.isActive = false) :
    (∀ p1 p2, login bcryptMatch jwtSecret now bytes freshSession st idf p1 =
      login bcryptMatch jwtSecret now bytes freshSession st idf p2) ∧
    (st.codes u.id = none → ∀ p,
      (login bcryptMatch jwtSecret now bytes freshSession st idf p).1 =
        .failure .ErrUserNotVerified ∧
      (login bcryptMatch jwtSecret now bytes freshSession st idf p).2.codes u.id =
        some { code := generateVerificationCode bytes, codeType := CodeVerifyType,
               expiresAt := now + 600, createdAt := now }) := by
  constructor
  · intro p1 p2
    simp [login, hfind, hinact]
  · intro hempty p
    simp [login, hfind, hinact, sendEmailCode, getEmailVerificationCode, hempty,
      saveEmailVerificationCode]

/-- Demo inactive user for the C9 witness. -/
def c9User : User :=
  { id := "u9", email := "i@b.co", login := "ina", passwordHash := "pw",
    twoFactorEnabled := false, twoFactorMethod := "", hashToken := "ht",
    isActive := false }

/-- Demo state for the C9 witness. -/
def c9State : AppState :=
  { users := [c9User], codes := fun _ => none, secrets := fun _ => none,
    sessions := fun _ => none, emails := [] }

/-- Witness for C9: the concrete inactive user gives the same outcome for a
correct and an incorrect password, a verify-type code, and the not-verified
error. -/
theorem login_inactive_independent_of_password_witness :
    getUserByLoginOrEmail c9State.users "ina" = some c9User ∧
    c9User.isActive = false ∧ c9State.codes c9User.id = none ∧
    (login (fun h p => h == p) "k" 40 [1, 2, 3, 4, 5, 6] "tok" c9State "ina" "pw" =
      login (fun h p => h == p) "k" 40 [1, 2, 3, 4, 5, 6] "tok" c9State "ina" "wrong") ∧
    (login (fun h p => h == p) "k" 40 [1, 2, 3, 4, 5, 6] "tok" c9State "ina" "pw").1 =
      .failure .ErrUserNotVerified ∧
    (login (fun h p => h == p) "k" 40 [1, 2, 3, 4, 5, 6] "tok" c9State "ina" "pw").2.codes
        c9User.id =
      some { code := generateVerificationCode [1, 2, 3, 4, 5, 6], codeType := CodeVerifyType,
             expiresAt := 40 + 600, createdAt := 40 } :=
  ⟨by decide, by decide, rfl,
   (login_inactive_independent_of_password (fun h p => h == p) "k" 40 [1, 2, 3, 4, 5, 6]
       "tok" c9State "ina" c9User (by decide) (by decide)).1 "pw" "wrong",
   ((login_inactive_independent_of_password (fun h p => h == p) "k" 40 [1, 2, 3, 4, 5, 6]
       "tok" c9State "ina" c9User (by decide) (by decide)).2 rfl "pw").1,
   ((login_inactive_independent_of_password (fun h p => h == p) "k" 40 [1, 2, 3, 4, 5, 6]
       "tok" c9State "ina" c9User (by decide) (by decide)).2 rfl "pw").2⟩

/-- Demo user for the C9 counterexample: inactive, with a pending code from
another flow. -/
def c9DirtyUser : User :=
  { id := "u9b", email := "j@b.co", login := "inb", passwordHash := "pw",
    twoFactorEnabled := false, twoFactorMethod := "", hashToken := "ht",
    isActive := false }

/-- Demo state for the C9 counterexample: the inactive user has a fresh
pending password-type code (reachable via RequestPasswordReset, which never
checks `is_active`). -/
def c9DirtyState : AppState :=
  { users := [c9DirtyUser],
    codes := fun uid =>
      if uid = "u9b" then
        some { code := "555555", codeType := CodePassType, expiresAt := 700, createdAt := 100 }
      else none,
    secrets := fun _ => none, sessions := fun _ => none, emails := [] }

/-- Counterexample to claim C9 as stated: for this inactive user a fresh
pending password-type code makes the verify-code issuance inside Login hit
the rate limiter, so Login fails with `ErrInternalError` -- not
`ErrUserNotVerified` -- and stores no verify-type code: the state, mailbox
included, is unchanged. (The password-independence part of the claim still
holds; only the unconditional verify-code/not-verified conclusion is
false.) -/
theorem login_inactive_rate_limited_internal_error :
    c9DirtyUser.isActive = false ∧
    c9DirtyState.codes c9DirtyUser.id =
      some { code := "555555", codeType := CodePassType, expiresAt := 700, createdAt := 100 } ∧
    (110 : Int) - 100 < defaultCodeTimeoutSecs ∧ CodePassType ≠ CodeVerifyType ∧
    (login (fun h p => h == p) "k" 110 [1, 2, 3, 4, 5, 6] "tok" c9DirtyState "inb" "pw").1 =
      .failure .ErrInternalError ∧
    (login (fun h p => h == p) "k" 110 [1, 2, 3, 4, 5, 6] "tok" c9DirtyState "inb" "pw").1 ≠
      .failure .ErrUserNotVerified ∧
    (login (fun h p => h == p) "k" 110 [1, 2, 3, 4, 5, 6] "tok" c9DirtyState "inb" "pw").2 =
      c9DirtyState :=
  ⟨rfl, rfl, by decide, by decide, rfl, by decide, rfl⟩

/-- Claim C10: in the emailed branches of VerifyTwoFactor and
VerifyTwoFactorCode the stored type tag is compared against `2fa` before the
lookup error is inspected, so with no pending code at all both operations
fail with `InvalidCodeType` rather than a not-found or internal error. -/
theorem missing_pending_code_invalid_code_type :
    (∀ (jwtSecret : String) (tv : String → String → Bool) (now : Int) (st : AppState)
        (tok code : String) (s : SessionEntry) (u : User),
      st.sessions tok = some s → ¬ now > s.expiresAt →
      getUserByID st.users s.userID = some u → u.twoFactorEnabled = true →
      u.twoFactorMethod = email2FAAuthMethod → st.codes s.userID = none →
      (verifyTwoFactor jwtSecret tv now st tok code).1 = .failure .InvalidCodeType) ∧
    (∀ (tv : String → String → Bool) (now : Int) (st : AppState) (uid code : String)
        (u : User),
      getUserByID st.users uid = some u → u.twoFactorEnabled = false →
      st.codes uid = none →
      (verifyTwoFactorCode tv now st uid email2FAAuthMethod code).1 =
        some .InvalidCodeType) := by
  constructor
  · intro jwtSecret tv now st tok code s u hsess hnexp huser hen hm hcodes
    simp [verifyTwoFactor, verifySessionToken, hsess, hnexp, huser, hen, hm,
      getEmailVerificationCode, hcodes, Code2FAType]
  · intro tv now st uid code u huser hen hcodes
    simp [verifyTwoFactorCode, huser, hen, email2FAAuthMethod,
      getEmailVerificationCode, hcodes, Code2FAType]

/-- Demo user for the C10 witness, first part: email 2FA enabled. -/
def c10UserA : User :=
  { id := "ua", email := "ua@b.co", login := "ua", passwordHash := "pw",
    twoFactorEnabled := true, twoFactorMethod := email2FAAuthMethod, hashToken := "ht",
    isActive := true }

/-- Demo user for the C10 witness, second part: 2FA not yet enabled. -/
def c10UserB : User :=
  { id := "ub", email := "ub@b.co", login := "ub", passwordHash := "pw",
    twoFactorEnabled := false, twoFactorMethod := "", hashToken := "ht",
    isActive := true }

/-- Demo state for the C10 witness: a live challenge for `ua`, no pending
codes at all. -/
def c10State : AppState :=
  { users := [c10UserA, c10UserB], codes := fun _ => none, secrets := fun _ => none,
    sessions := fun t =>
      if t = "sess" then some { userID := "ua", expiresAt := 500, createdAt := 0 } else none,
    emails := [] }

/-- Witness for C10 at a concrete state with an empty mailbox. -/
theorem missing_pending_code_invalid_code_type_witness :
    c10State.sessions "sess" = some { userID := "ua", expiresAt := 500, createdAt := 0 } ∧
    ¬ (100 : Int) > (500 : Int) ∧
    getUserByID c10State.users "ua" = some c10UserA ∧
    getUserByID c10State.users "ub" = some c10UserB ∧
    c10State.codes "ua" = none ∧ c10State.codes "ub" = none ∧
    (verifyTwoFactor "k" (fun _ _ => false) 100 c10State "sess" "123456").1 =
      .failure .InvalidCodeType ∧
    (verifyTwoFactorCode (fun _ _ => false) 100 c10State "ub" email2FAAuthMethod
        "123456").1 = some .InvalidCodeType :=
  ⟨by decide, by decide, by decide, by decide, rfl, rfl,
   (missing_pending_code_invalid_code_type).1 "k" (fun _ _ => false) 100 c10State
     "sess" "123456" { userID := "ua", expiresAt := 500, createdAt := 0 } c10UserA
     (by decide) (by decide) (by decide) (by decide) (by decide) rfl,
   (missing_pending_code_invalid_code_type).2 (fun _ _ => false) 100 c10State
     "ub" "123456" c10UserB (by decide) (by decide) rfl⟩

/-- Demo user for C2: email 2FA enabled. -/
def c2User : User :=
  { id := "u1", email := "e@b.co", login := "l1", passwordHash := "pw",
    twoFactorEnabled := true, twoFactorMethod := email2FAAuthMethod, hashToken := "ht",
    isActive := true }

/-- Mailbox after issuing a 2fa-type code at t=100 and then a password-type
code at t=200 for the same user. -/
def c2Codes : String → Option PendingCode :=
  saveEmailVerificationCode
    (saveEmailVerificationCode (fun _ => none) "u1" "111111" 700 Code2FAType 100)
    "u1" "222222" 800 CodePassType 200

/-- Demo state for C2: the double-issued mailbox plus a live challenge. -/
def c2State : AppState :=
  { users := [c2User], codes := c2Codes, secrets := fun _ => none,
    sessions := fun t =>
      if t = "sess" then some { userID := "u1", expiresAt := 600, createdAt := 250 } else none,
    emails := [] }

/-- Claim C2, evaluated at the failing input: after issuing a 2fa-type code
and then a password-type code, the single mailbox row holds the newest code
and expiry but still the OLD type tag `2fa` (the upsert's `DO UPDATE` clause
does not set `type`), so a consume expecting type `2fa` does NOT fail with
the wrong-code-type error -- it succeeds with the password-flow code. -/
theorem saveEmailVerificationCode_type_not_replaced :
    c2Codes "u1" =
      some { code := "222222", codeType := Code2FAType, expiresAt := 800, createdAt := 200 } ∧
    (verifyTwoFactor "k" (fun _ _ => false) 300 c2State "sess" "222222").1 ≠
      .failure .InvalidCodeType ∧
    (verifyTwoFactor "k" (fun _ _ => false) 300 c2State "sess" "222222").1 =
      .tokens c2User (generateAccessJWT "k" 300 "u1" defaultJWTDuration)
        (generateRefreshJWT "k" 300 "u1" "ht" defaultJWTDuration) :=
  ⟨rfl, by decide, rfl⟩

/-- Observable of an auth outcome: the lifetime (exp - iat) of the refresh
token it carries, if any. -/
def refreshTokenLifetime : AuthOutcome → Option Int
  | .tokens _ _ r => some (r.claims.expiresAt - r.claims.issuedAt)
  | _ => none

/-- Observable of a RefreshAccessToken result: the lifetime of the refresh
token of the issued pair, if any. -/
def refreshPairLifetime : Except AuthErr (SignedAccessToken × SignedRefreshToken) → Option Int
  | .ok p => some (p.2.claims.expiresAt - p.2.claims.issuedAt)
  | .error _ => none

/-- Demo user for C4: active, no 2FA (direct token login). -/
def c4UserA : User :=
  { id := "u1", email := "a@b.co", login := "alice", passwordHash := "pw",
    twoFactorEnabled := false, twoFactorMethod := "", hashToken := "h1",
    isActive := true }

/-- Demo user for C4: email 2FA enabled. -/
def c4UserB : User :=
  { id := "u2", email := "b@b.co", login := "bob", passwordHash := "pw",
    twoFactorEnabled := true, twoFactorMethod := email2FAAuthMethod, hashToken := "h2",
    isActive := true }

/-- Demo state for C4: a pending 2fa code and a live challenge for `u2`. -/
def c4State : AppState :=
  { users := [c4UserA, c4UserB],
    codes := fun uid =>
      if uid = "u2" then
        some { code := "123456", codeType := Code2FAType, expiresAt := 1000, createdAt := 0 }
      else none,
    secrets := fun _ => none,
    sessions := fun t =>
      if t = "sess" then some { userID := "u2", expiresAt := 900, createdAt := 0 } else none,
    emails := [] }

/-- Claim C4, evaluated at the failing input: the refresh tokens issued by
Login (without 2FA) and RefreshAccessToken live for
`defaultJWTRefreshDuration` (720h), but the refresh token issued by
VerifyTwoFactor after a successful second factor lives only for
`defaultJWTDuration` (10 minutes) -- the source passes the access-token
duration at that call site. -/
theorem verifyTwoFactor_refresh_duration_short :
    refreshTokenLifetime (login (fun h p => h == p) "k" 100 [] "t" c4State "alice" "pw").1 =
      some defaultJWTRefreshDuration ∧
    refreshPairLifetime (refreshAccessToken "k" 100 c4State "u1") =
      some defaultJWTRefreshDuration ∧
    refreshTokenLifetime
        (verifyTwoFactor "k" (fun _ _ => false) 100 c4State "sess" "123456").1 =
      some defaultJWTDuration ∧
    defaultJWTDuration ≠ defaultJWTRefreshDuration :=
  ⟨rfl, rfl, rfl, by decide⟩

/-- Each character produced by the verification-code generator is a decimal
digit. -/
theorem char_ofNat_digit_bounds (b : Nat) :
    48 ≤ (Char.ofNat (48 + b % 10)).toNat ∧ (Char.ofNat (48 + b % 10)).toNat ≤ 57 := by
  have h : b % 10 = 0 ∨ b % 10 = 1 ∨ b % 10 = 2 ∨ b % 10 = 3 ∨ b % 10 = 4 ∨ b % 10 = 5 ∨
      b % 10 = 6 ∨ b % 10 = 7 ∨ b % 10 = 8 ∨ b % 10 = 9 := by omega
  rcases h with h | h | h | h | h | h | h | h | h | h <;> rw [h] <;> decide

/-- Claim C6 (amended): SendEmailCode fails with
`ErrTooManyEmailCodeRequests` exactly when a code is already pending for the
user whose (nonempty) type differs from the requested one, is not the
verify type, and was created within the two-minute window; in every other
case it stores a fresh six-digit code with a ten-minute expiry in the user's
single mailbox slot and queues the email template selected by the code
type. -/
theorem sendEmailCode_rate_limit_spec
    (now : Int) (bytes : List Nat) (st : AppState) (u : User) (ct : String)
    (hlen : bytes.length = 6) :
    ((sendEmailCode now bytes st u ct).1 = some .ErrTooManyEmailCodeRequests ↔
      ∃ p, st.codes u.id = some p ∧ p.codeType ≠ "" ∧
        now - p.createdAt < defaultCodeTimeoutSecs ∧
        p.codeType ≠ CodeVerifyType ∧ ct ≠ p.codeType) ∧
    ((sendEmailCode now bytes st u ct).1 ≠ some .ErrTooManyEmailCodeRequests →
      (sendEmailCode now bytes st u ct).1 = none ∧
      (∃ row, (sendEmailCode now bytes st u ct).2.codes u.id = some row ∧
        row.code = generateVerificationCode bytes ∧
        row.code.length = 6 ∧
        (∀ c ∈ row.code.data, 48 ≤ c.toNat ∧ c.toNat ≤ 57) ∧
        row.expiresAt = now + 600 ∧ row.createdAt = now) ∧
      (ct = Code2FAType →
        (sendEmailCode now bytes st u ct).2.emails =
          st.emails ++ [{ recipient := u.email, template := .twoFactorCodeData,
                          userName := u.login, code := generateVerificationCode bytes }]) ∧
      (ct = CodePassType →
        (sendEmailCode now bytes st u ct).2.emails =
          st.emails ++ [{ recipient := u.email, template := .resetPasswordData,
                          userName := u.login, code := generateVerificationCode bytes }]) ∧
      (ct = CodeVerifyType →
        (sendEmailCode now bytes st u ct).2.emails =
          st.emails ++ [{ recipient := u.email, template := .registrationConfirmationData,
                          userName := u.login, code := generateVerificationCode bytes }])) := by
  have hdigits : ∀ c ∈ (generateVerificationCode bytes).data, 48 ≤ c.toNat ∧ c.toNat ≤ 57 := by
    intro c hc
    simp only [generateVerificationCode, String.data] at hc
    rcases List.mem_map.mp hc with ⟨b, _, hb⟩
    exact hb ▸ char_ofNat_digit_bounds b
  have hcodelen : (generateVerificationCode bytes).length = 6 := by
    simp [generateVerificationCode, String.length, hlen]
  cases hp : st.codes u.id with
  | none =>
    constructor
    · simp [sendEmailCode, getEmailVerificationCode, hp]
    · intro _
      refine ⟨by simp [sendEmailCode, getEmailVerificationCode, hp], ?_, ?_, ?_, ?_⟩
      · refine ⟨{ code := generateVerificationCode bytes, codeType := ct,
                  expiresAt := now + 600, createdAt := now },
            ?_, rfl, hcodelen, hdigits, rfl, rfl⟩
        simp [sendEmailCode, getEmailVerificationCode, hp, saveEmailVerificationCode]
      all_goals intro hct
      all_goals simp [sendEmailCode, getEmailVerificationCode, hp, hct,
        Code2FAType, CodePassType, CodeVerifyType]
  | some p =>
    by_cases hcond : p.codeType ≠ "" ∧ now - p.createdAt < defaultCodeTimeoutSecs ∧
        p.codeType ≠ CodeVerifyType ∧ ct ≠ p.codeType
    · constructor
      · simp only [sendEmailCode, getEmailVerificationCode, hp]
        rw [if_pos hcond]
        simp only [true_iff]
        exact ⟨p, rfl, hcond.1, hcond.2.1, hcond.2.2.1, hcond.2.2.2⟩
      · intro hne
        exfalso
        apply hne
        simp only [sendEmailCode, getEmailVerificationCode, hp]
        rw [if_pos hcond]
    · constructor
      · simp only [sendEmailCode, getEmailVerificationCode, hp]
        rw [if_neg hcond]
        refine iff_of_false (by simp) ?_
        rintro ⟨q, hq, h1, h2, h3, h4⟩
        obtain rfl : p = q := by injection hq
        exact hcond ⟨h1, h2, h3, h4⟩
      · intro _
        refine ⟨?_, ?_, ?_, ?_, ?_⟩
        · simp only [sendEmailCode, getEmailVerificationCode, hp]
          rw [if_neg hcond]
        · refine ⟨{ code := generateVerificationCode bytes, codeType := p.codeType,
                    expiresAt := now + 600, createdAt := now },
              ?_, rfl, hcodelen, hdigits, rfl, rfl⟩
          simp only [sendEmailCode, getEmailVerificationCode, hp]
          rw [if_neg hcond]
          simp [saveEmailVerificationCode, hp]
        all_goals intro hct
        all_goals simp only [sendEmailCode, getEmailVerificationCode, hp]
        all_goals rw [if_neg hcond]
        all_goals simp [hct, Code2FAType, CodePassType, CodeVerifyType]

/-- Demo user for the C6 and C7 theorems. -/
def c6User : User :=
  { id := "u6", email := "c@b.co", login := "carol", passwordHash := "pw",
    twoFactorEnabled := false, twoFactorMethod := "", hashToken := "ht",
    isActive := true }

/-- Demo state for the C6 counterexample: a verify-type code issued seconds
ago is pending. -/
def c6State : AppState :=
  { users := [c6User],
    codes := fun uid =>
      if uid = "u6" then
        some { code := "111111", codeType := CodeVerifyType, expiresAt := 700, createdAt := 100 }
      else none,
    secrets := fun _ => none, sessions := fun _ => none, emails := [] }

/-- Counterexample to claim C6 as stated: a fresh verify-type code is
pending and a 2fa-type code is requested -- the claimed condition (pending
code of a different type within the window) holds, yet issuance succeeds,
because the source exempts pending verify-type codes from the rate limit. -/
theorem sendEmailCode_rate_limit_claim_false :
    (∃ p, c6State.codes c6User.id = some p ∧ (110 : Int) - p.createdAt < 120 ∧
      Code2FAType ≠ p.codeType) ∧
    (sendEmailCode 110 [0, 0, 0, 0, 0, 0] c6State c6User Code2FAType).1 ≠
      some .ErrTooManyEmailCodeRequests :=
  ⟨⟨{ code := "111111", codeType := CodeVerifyType, expiresAt := 700, createdAt := 100 },
     rfl, by decide, by decide⟩, by decide⟩

/-- Witness for C6 (amended) at a state with a pending stale 2fa code and a
fresh request of the password type. -/
theorem sendEmailCode_rate_limit_spec_witness :
    ([3, 1, 4, 1, 5, 9] : List Nat).length = 6 ∧
    (((sendEmailCode 110 [3, 1, 4, 1, 5, 9] c6State c6User Code2FAType).1 =
        some .ErrTooManyEmailCodeRequests ↔
      ∃ p, c6State.codes c6User.id = some p ∧ p.codeType ≠ "" ∧
        (110 : Int) - p.createdAt < defaultCodeTimeoutSecs ∧
        p.codeType ≠ CodeVerifyType ∧ Code2FAType ≠ p.codeType) ∧
    ((sendEmailCode 110 [3, 1, 4, 1, 5, 9] c6State c6User Code2FAType).1 ≠
        some .ErrTooManyEmailCodeRequests →
      (sendEmailCode 110 [3, 1, 4, 1, 5, 9] c6State c6User Code2FAType).1 = none ∧
      (∃ row,
        (sendEmailCode 110 [3, 1, 4, 1, 5, 9] c6State c6User Code2FAType).2.codes c6User.id =
          some row ∧
        row.code = generateVerificationCode [3, 1, 4, 1, 5, 9] ∧
        row.code.length = 6 ∧
        (∀ c ∈ row.code.data, 48 ≤ c.toNat ∧ c.toNat ≤ 57) ∧
        row.expiresAt = 110 + 600 ∧ row.createdAt = 110) ∧
      (Code2FAType = Code2FAType →
        (sendEmailCode 110 [3, 1, 4, 1, 5, 9] c6State c6User Code2FAType).2.emails =
          c6State.emails ++
            [{ recipient := c6User.email, template := .twoFactorCodeData,
               userName := c6User.login,
               code := generateVerificationCode [3, 1, 4, 1, 5, 9] }]) ∧
      (Code2FAType = CodePassType →
        (sendEmailCode 110 [3, 1, 4, 1, 5, 9] c6State c6User Code2FAType).2.emails =
          c6State.emails ++
            [{ recipient := c6User.email, template := .resetPasswordData,
               userName := c6User.login,
               code := generateVerificationCode [3, 1, 4, 1, 5, 9] }]) ∧
      (Code2FAType = CodeVerifyType →
        (sendEmailCode 110 [3, 1, 4, 1, 5, 9] c6State c6User Code2FAType).2.emails =
          c6State.emails ++
            [{ recipient := c6User.email, template := .registrationConfirmationData,
               userName := c6User.login,
               code := generateVerificationCode [3, 1, 4, 1, 5, 9] }]))) :=
  ⟨by decide,
   sendEmailCode_rate_limit_spec 110 [3, 1, 4, 1, 5, 9] c6State c6User Code2FAType
     (by decide)⟩

/-- Claim C7 (amended): for an email-2FA user whose mailbox slot is empty,
RequestPasswordReset stores exactly one code -- the 2fa-type one, which is
the type ResetPassword's emailed-2FA branch consumes -- and queues exactly
one email; the call itself then returns `ErrTooManyEmailCodeRequests`
because its second, password-type issuance is stopped by the rate limiter.
The mailed code is accepted by ResetPassword. -/
theorem requestPasswordReset_single_code_clean_slot
    (now : Int) (b1 b2 : List Nat) (st : AppState) (idf : String) (u : User)
    (hfind : getUserByLoginOrEmail st.users idf = some u)
    (h2fa : u.twoFactorEnabled = true) (hm : u.twoFactorMethod = email2FAAuthMethod)
    (hempty : st.codes u.id = none) :
    (requestPasswordReset now b1 b2 st idf).1 = some .ErrTooManyEmailCodeRequests ∧
    (requestPasswordReset now b1 b2 st idf).2.codes u.id =
      some { code := generateVerificationCode b1, codeType := Code2FAType,
             expiresAt := now + 600, createdAt := now } ∧
    (requestPasswordReset now b1 b2 st idf).2.emails =
      st.emails ++ [{ recipient := u.email, template := .twoFactorCodeData,
                      userName := u.login, code := generateVerificationCode b1 }] ∧
    (∀ (tv : String → String → Bool) (newHash newTok newPw : String),
      (resetPassword tv now newHash newTok (requestPasswordReset now b1 b2 st idf).2 idf
          (generateVerificationCode b1) newPw).1 = none) := by
  have hsend1 : sendEmailCode now b1 st u Code2FAType =
      (none,
       { st with
           codes := saveEmailVerificationCode st.codes u.id
             (generateVerificationCode b1) (now + 600) Code2FAType now,
           emails := st.emails ++
             [{ recipient := u.email, template := .twoFactorCodeData,
                userName := u.login, code := generateVerificationCode b1 }] }) := by
    simp [sendEmailCode, getEmailVerificationCode, hempty, Code2FAType, CodePassType,
      CodeVerifyType]
  have hrow : (saveEmailVerificationCode st.codes u.id (generateVerificationCode b1)
      (now + 600) Code2FAType now) u.id =
      some { code := generateVerificationCode b1, codeType := Code2FAType,
             expiresAt := now + 600, createdAt := now } := by
    simp [saveEmailVerificationCode, hempty]
  have hsend2 : ∀ st2 : AppState,
      st2.codes u.id = some { code := generateVerificationCode b1, codeType := Code2FAType,
                              expiresAt := now + 600, createdAt := now } →
      sendEmailCode now b2 st2 u CodePassType = (some .ErrTooManyEmailCodeRequests, st2) := by
    intro st2 h2
    have hlt : (0 : Int) < defaultCodeTimeoutSecs := by decide
    simp [sendEmailCode, getEmailVerificationCode, h2, Code2FAType, CodePassType,
      CodeVerifyType, hlt]
  have hmain : requestPasswordReset now b1 b2 st idf =
      (some .ErrTooManyEmailCodeRequests,
       { st with
           codes := saveEmailVerificationCode st.codes u.id
             (generateVerificationCode b1) (now + 600) Code2FAType now,
           emails := st.emails ++
             [{ recipient := u.email, template := .twoFactorCodeData,
                userName := u.login, code := generateVerificationCode b1 }] }) := by
    simp [requestPasswordReset, hfind, h2fa, hm, email2FAAuthMethod, google2FAAuthMethod,
      hsend1, hsend2, saveEmailVerificationCode, hempty]
  have hget : getEmailVerificationCode
      (saveEmailVerificationCode st.codes u.id (generateVerificationCode b1) (now + 600)
        Code2FAType now) u.id =
      (generateVerificationCode b1, Code2FAType, now + 600, now, none) := by
    simp [getEmailVerificationCode, hrow]
  refine ⟨by rw [hmain], by rw [hmain]; exact hrow, by rw [hmain], ?_⟩
  intro tv newHash newTok newPw
  rw [hmain]
  have hexp : ¬ now > now + 600 := by omega
  simp [resetPassword, hfind, h2fa, hm, email2FAAuthMethod, google2FAAuthMethod, hget, hexp]

/-- Demo state for the C7 witness: the email-2FA user `bob` of `c4UserB`
with an empty mailbox. -/
def c7CleanState : AppState :=
  { users := [c4UserB], codes := fun _ => none, secrets := fun _ => none,
    sessions := fun _ => none, emails := [] }

/-- Witness for C7 (amended) at the concrete clean-slot state. -/
theorem requestPasswordReset_single_code_clean_slot_witness :
    getUserByLoginOrEmail c7CleanState.users "bob" = some c4UserB ∧
    c4UserB.twoFactorEnabled = true ∧ c4UserB.twoFactorMethod = email2FAAuthMethod ∧
    c7CleanState.codes c4UserB.id = none ∧
    ((requestPasswordReset 50 [1, 2, 3, 4, 5, 6] [7, 8, 9, 0, 1, 2] c7CleanState "bob").1 =
        some .ErrTooManyEmailCodeRequests ∧
      (requestPasswordReset 50 [1, 2, 3, 4, 5, 6] [7, 8, 9, 0, 1, 2] c7CleanState
          "bob").2.codes c4UserB.id =
        some { code := generateVerificationCode [1, 2, 3, 4, 5, 6], codeType := Code2FAType,
               expiresAt := 50 + 600, createdAt := 50 } ∧
      (requestPasswordReset 50 [1, 2, 3, 4, 5, 6] [7, 8, 9, 0, 1, 2] c7CleanState
          "bob").2.emails =
        c7CleanState.emails ++
          [{ recipient := c4UserB.email, template := .twoFactorCodeData,
             userName := c4UserB.login,
             code := generateVerificationCode [1, 2, 3, 4, 5, 6] }] ∧
      (∀ (tv : String → String → Bool) (newHash newTok newPw : String),
        (resetPassword tv 50 newHash newTok
            (requestPasswordReset 50 [1, 2, 3, 4, 5, 6] [7, 8, 9, 0, 1, 2] c7CleanState
              "bob").2 "bob"
            (generateVerificationCode [1, 2, 3, 4, 5, 6]) newPw).1 = none)) :=
  ⟨by decide, by decide, by decide, rfl,
   requestPasswordReset_single_code_clean_slot 50 [1, 2, 3, 4, 5, 6] [7, 8, 9, 0, 1, 2]
     c7CleanState "bob" c4UserB (by decide) (by decide) (by decide) rfl⟩

/-- Demo state for the C7 counterexample: the email-2FA user `bob` with a
stale password-type code pending from an earlier abandoned reset. -/
def c7DirtyState : AppState :=
  { users := [c4UserB],
    codes := fun uid =>
      if uid = "u2" then
        some { code := "999999", codeType := CodePassType, expiresAt := 400, createdAt := 0 }
      else none,
    secrets := fun _ => none, sessions := fun _ => none, emails := [] }

/-- Counterexample to claim C7 as stated: from a state with a stale
password-type code pending, RequestPasswordReset for the email-2FA user
issues TWO codes in one reset attempt (both emails are queued), and the
surviving mailbox row keeps the type tag `password` -- not the `2fa` type
that ResetPassword's emailed-2FA branch expects -- so consuming the mailed
code fails with `InvalidCodeType`. -/
theorem requestPasswordReset_two_codes_dirty_slot :
    c7DirtyState.codes c4UserB.id =
      some { code := "999999", codeType := CodePassType, expiresAt := 400, createdAt := 0 } ∧
    (requestPasswordReset 300 [1, 1, 1, 1, 1, 1] [2, 2, 2, 2, 2, 2] c7DirtyState "bob").1 =
      none ∧
    (requestPasswordReset 300 [1, 1, 1, 1, 1, 1] [2, 2, 2, 2, 2, 2] c7DirtyState
        "bob").2.emails.length = c7DirtyState.emails.length + 2 ∧
    (requestPasswordReset 300 [1, 1, 1, 1, 1, 1] [2, 2, 2, 2, 2, 2] c7DirtyState
        "bob").2.codes c4UserB.id =
      some { code := generateVerificationCode [2, 2, 2, 2, 2, 2], codeType := CodePassType,
             expiresAt := 300 + 600, createdAt := 300 } ∧
    (resetPassword (fun _ _ => false) 300 "nh" "nt"
        (requestPasswordReset 300 [1, 1, 1, 1, 1, 1] [2, 2, 2, 2, 2, 2] c7DirtyState "bob").2
        "bob" (generateVerificationCode [2, 2, 2, 2, 2, 2]) "npw").1 =
      some .InvalidCodeType :=
  ⟨rfl, rfl, rfl, rfl, rfl⟩

/-- Claim C8 (amended): every code-consuming operation (VerifyTwoFactor,
DisableTwoFactorAuth, VerifyTwoFactorCode, ResetPassword) rejects with the
code-expired error exactly when `now` is STRICTLY after `expiresAt`; a code
whose `expiresAt` equals the current instant is still accepted -- the
boundary is uniformly strict, not at-or-after. -/
theorem code_expiry_strict_boundary :
    (∀ (jwtSecret : String) (tv : String → String → Bool) (now : Int) (st : AppState)
        (tok code : String) (s : SessionEntry) (u : User) (p : PendingCode),
      st.sessions tok = some s → ¬ now > s.expiresAt →
      getUserByID st.users s.userID = some u → u.twoFactorEnabled = true →
      u.twoFactorMethod = email2FAAuthMethod →
      st.codes s.userID = some p → p.codeType = Code2FAType → p.code = code →
      ((verifyTwoFactor jwtSecret tv now st tok code).1 =
          .failure .ErrVerificationCodeExpired ↔ now > p.expiresAt)) ∧
    (∀ (tv : String → String → Bool) (now : Int) (st : AppState) (uid code : String)
        (u : User) (p : PendingCode),
      getUserByID st.users uid = some u → u.twoFactorEnabled = true →
      u.twoFactorMethod = email2FAAuthMethod →
      st.codes uid = some p → p.codeType = Code2FAType → p.code = code →
      ((disableTwoFactorAuth tv now st uid email2FAAuthMethod code).1 =
          some .ErrVerificationCodeExpired ↔ now > p.expiresAt)) ∧
    (∀ (tv : String → String → Bool) (now : Int) (st : AppState) (uid code : String)
        (u : User) (p : PendingCode),
      getUserByID st.users uid = some u → u.twoFactorEnabled = false →
      st.codes uid = some p → p.codeType = Code2FAType → p.code = code →
      ((verifyTwoFactorCode tv now st uid email2FAAuthMethod code).1 =
          some .ErrVerificationCodeExpired ↔ now > p.expiresAt)) ∧
    (∀ (tv : String → String → Bool) (now : Int) (newHash newTok : String) (st : AppState)
        (idf code newPw : String) (u : User) (p : PendingCode),
      getUserByLoginOrEmail st.users idf = some u → u.twoFactorEnabled = false →
      st.codes u.id = some p → p.codeType = CodePassType → p.code = code →
      ((resetPassword tv now newHash newTok st idf code newPw).1 =
          some .ErrVerificationCodeExpired ↔ now > p.expiresAt)) := by
  refine ⟨?_, ?_, ?_, ?_⟩
  · intro jwtSecret tv now st tok code s u p hsess hnexp huser hen hm hcodes htype hcode
    by_cases hb : now > p.expiresAt <;>
      simp [verifyTwoFactor, verifySessionToken, hsess, hnexp, huser, hen, hm,
        getEmailVerificationCode, hcodes, htype, hcode, hb]
  · intro tv now st uid code u p huser hen hm hcodes htype hcode
    by_cases hb : now > p.expiresAt <;>
      simp [disableTwoFactorAuth, huser, hen, hm, email2FAAuthMethod, google2FAAuthMethod,
        getEmailVerificationCode, hcodes, htype, hcode, hb, Code2FAType]
  · intro tv now st uid code u p huser hen hcodes htype hcode
    by_cases hb : now > p.expiresAt <;>
      simp [verifyTwoFactorCode, huser, hen, email2FAAuthMethod, google2FAAuthMethod,
        getEmailVerificationCode, hcodes, htype, hcode, hb, Code2FAType]
  · intro tv now newHash newTok st idf code newPw u p hfind hen hcodes htype hcode
    by_cases hb : now > p.expiresAt <;>
      simp [resetPassword, hfind, hen, getEmailVerificationCode, hcodes, htype, hcode, hb,
        CodePassType]

/-- Demo state for C8: email-2FA user `bob` with a live challenge and a
pending 2fa code expiring at t=1000. -/
def c8State : AppState :=
  { users := [c4UserB],
    codes := fun uid =>
      if uid = "u2" then
        some { code := "123456", codeType := Code2FAType, expiresAt := 1000, createdAt := 0 }
      else none,
    secrets := fun _ => none,
    sessions := fun t =>
      if t = "sess" then some { userID := "u2", expiresAt := 2000, createdAt := 0 } else none,
    emails := [] }

/-- Demo state for C8, registration-confirmation shape: `ub` has 2FA not yet
enabled and a pending 2fa code. -/
def c8StateB : AppState :=
  { users := [c10UserB],
    codes := fun uid =>
      if uid = "ub" then
        some { code := "654321", codeType := Code2FAType, expiresAt := 1000, createdAt := 0 }
      else none,
    secrets := fun _ => none, sessions := fun _ => none, emails := [] }

/-- Demo state for C8, password-reset shape: non-2FA user `carol` with a
pending password-type code. -/
def c8StateC : AppState :=
  { users := [c6User],
    codes := fun uid =>
      if uid = "u6" then
        some { code := "777777", codeType := CodePassType, expiresAt := 1000, createdAt := 0 }
      else none,
    secrets := fun _ => none, sessions := fun _ => none, emails := [] }

/-- Counterexample to claim C8 as stated: at `now = expiresAt = 1000` the
pending code is still accepted -- VerifyTwoFactor issues tokens instead of
rejecting with the code-expired error, so the boundary is strictly-after,
not at-or-after. -/
theorem code_expiry_at_now_accepted :
    c8State.codes "u2" =
      some { code := "123456", codeType := Code2FAType, expiresAt := 1000, createdAt := 0 } ∧
    (verifyTwoFactor "k" (fun _ _ => false) 1000 c8State "sess" "123456").1 ≠
      .failure .ErrVerificationCodeExpired ∧
    (verifyTwoFactor "k" (fun _ _ => false) 1000 c8State "sess" "123456").1 =
      .tokens c4UserB (generateAccessJWT "k" 1000 "u2" defaultJWTDuration)
        (generateRefreshJWT "k" 1000 "u2" "h2" defaultJWTDuration) :=
  ⟨rfl, by decide, rfl⟩

/-- Witness for C8 (amended), instantiating all four operations at concrete
states, at the boundary instant for the first and strictly past expiry for
the others. -/
theorem code_expiry_strict_boundary_witness :
    (c8State.sessions "sess" = some { userID := "u2", expiresAt := 2000, createdAt := 0 } ∧
      ¬ (1000 : Int) > 2000 ∧ getUserByID c8State.users "u2" = some c4UserB ∧
      ((verifyTwoFactor "k" (fun _ _ => false) 1000 c8State "sess" "123456").1 =
          .failure .ErrVerificationCodeExpired ↔ (1000 : Int) > 1000)) ∧
    ((disableTwoFactorAuth (fun _ _ => false) 1500 c8State "u2" email2FAAuthMethod
          "123456").1 = some .ErrVerificationCodeExpired ↔ (1500 : Int) > 1000) ∧
    ((verifyTwoFactorCode (fun _ _ => false) 1500 c8StateB "ub" email2FAAuthMethod
          "654321").1 = some .ErrVerificationCodeExpired ↔ (1500 : Int) > 1000) ∧
    ((resetPassword (fun _ _ => false) 1500 "nh" "nt" c8StateC "carol" "777777" "npw").1 =
        some .ErrVerificationCodeExpired ↔ (1500 : Int) > 1000) :=
  ⟨⟨rfl, by decide, by decide,
    code_expiry_strict_boundary.1 "k" (fun _ _ => false) 1000 c8State "sess" "123456"
      { userID := "u2", expiresAt := 2000, createdAt := 0 } c4UserB
      { code := "123456", codeType := Code2FAType, expiresAt := 1000, createdAt := 0 }
      rfl (by decide) (by decide) (by decide) (by decide) rfl (by decide) (by decide)⟩,
   code_expiry_strict_boundary.2.1 (fun _ _ => false) 1500 c8State "u2" "123456" c4UserB
     { code := "123456", codeType := Code2FAType, expiresAt := 1000, createdAt := 0 }
     (by decide) (by decide) (by decide) rfl (by decide) (by decide),
   code_expiry_strict_boundary.2.2.1 (fun _ _ => false) 1500 c8StateB "ub" "654321" c10UserB
     { code := "654321", codeType := Code2FAType, expiresAt := 1000, createdAt := 0 }
     (by decide) (by decide) rfl (by decide) (by decide),
   code_expiry_strict_boundary.2.2.2 (fun _ _ => false) 1500 "nh" "nt" c8StateC "carol"
     "777777" "npw" c6User
     { code := "777777", codeType := CodePassType, expiresAt := 1000, createdAt := 0 }
     (by decide) (by decide) rfl (by decide) (by decide)⟩

end FinanceManager
